import Mathlib

/-!
Verification development for the GitLab trigger-validation and prompt-assembly
core of the claude-code-action repository.

The TypeScript sources are shallowly embedded as Lean definitions:

* `src/gitlab/validation/trigger.ts` — `GitLabTriggerValidator` with
  `validateTrigger`, `validateNoteEvent`, `validateIssueEvent`,
  `validateMergeRequestEvent`, `containsTriggerPhrase`, `isBotUser`,
  `validatePipelineTrigger`;
* `src/gitlab/data/formatter.ts` — `isRelevantFile` and the pure selection
  core of `fetchModifiedFiles` (the external API client `getFile` and the
  base64 decoder are abstracted as function parameters; a `getFile` result of
  `none` models a thrown fetch error, which the source catches and skips);
* `src/gitlab/create-prompt/index.ts` — `buildDisallowedToolsString` and the
  `DISALLOWED_TOOLS` base deny-list.

JavaScript string builtins are modelled on `List Char`:
`String.prototype.includes` as substring (infix) containment,
`endsWith`/`startsWith` as suffix/prefix tests, `toLowerCase` as a
character-wise lowering (the strings the code compares are ASCII), and
`String.prototype.replace` with a one-character pattern as removal of the
first occurrence. JS `undefined`/absent fields are `Option`, and JS string
truthiness (`!s`, `s && ...`) is the explicit `== ""` test.
-/

namespace GitLabAction

/-- Model of JS `s.toLowerCase()`: lower every character. -/
def strLower (s : String) : String := ⟨s.data.map Char.toLower⟩

/-- Model of JS `hay.includes(needle)`: substring containment. -/
def strIncludes (hay needle : String) : Bool := decide (needle.data <:+: hay.data)

/-- Model of JS `s.endsWith(suffix)`. -/
def strEndsWith (s tail : String) : Bool := decide (tail.data <:+ s.data)

/-- Model of JS `s.startsWith(head)`. -/
def strStartsWith (s head : String) : Bool := decide (head.data <+: s.data)

/-- Remove the first occurrence of `'@'` from a character list. -/
def removeFirstAt : List Char → List Char
  | [] => []
  | c :: cs => if c = '@' then cs else c :: removeFirstAt cs

/-- Model of JS `s.replace('@', '')`: drop the first `'@'` only. -/
def replaceFirstAt (s : String) : String := ⟨removeFirstAt s.data⟩

/-- Model of JS `Array.prototype.join(",")`. -/
def joinComma : List String → String
  | [] => ""
  | [s] => s
  | s :: rest => s ++ "," ++ joinComma rest

/-- Model of JS `v || dflt` on an optional string (`undefined` and `""` are falsy). -/
def jsStringOr (v : Option String) (dflt : String) : String :=
  match v with
  | some s => if s == "" then dflt else s
  | none => dflt

/- Data model, from `src/gitlab/types.d.ts` (only the fields the verified
functions read are embedded). `GitLabUser.name` is `Option` because
`isBotUser` guards it with `user.name || ''`. -/

structure GitLabUser where
  id : Int
  username : String
  name : Option String
deriving Repr, DecidableEq

structure GitLabProject where
  id : Int
deriving Repr, DecidableEq

structure GitLabNote where
  id : Int
  note : String
  created_at : String
  updated_at : String
  system : Bool
  noteable_type : String
  noteable_id : Int
deriving Repr, DecidableEq

structure GitLabIssueAttributes where
  iid : Int
  title : String
  description : Option String
  state : String
deriving Repr, DecidableEq

structure GitLabMergeRequestAttributes where
  iid : Int
  title : String
  description : Option String
  state : String
deriving Repr, DecidableEq

structure GitLabLabel where
  id : Int
  title : String
deriving Repr, DecidableEq

structure GitLabNoteEvent where
  user : GitLabUser
  project : GitLabProject
  object_attributes : GitLabNote
  issue : Option GitLabIssueAttributes
  merge_request : Option GitLabMergeRequestAttributes
deriving Repr, DecidableEq

structure GitLabIssueEvent where
  user : GitLabUser
  project : GitLabProject
  object_attributes : GitLabIssueAttributes
  assignees : Option (List GitLabUser)
  labels : Option (List GitLabLabel)
deriving Repr, DecidableEq

structure GitLabMergeRequestEvent where
  user : GitLabUser
  project : GitLabProject
  object_attributes : GitLabMergeRequestAttributes
  assignees : Option (List GitLabUser)
  labels : Option (List GitLabLabel)
deriving Repr, DecidableEq

/-- The webhook event union, tagged by `object_kind`. -/
inductive GitLabWebhookEvent where
  | note (e : GitLabNoteEvent)
  | issue (e : GitLabIssueEvent)
  | merge_request (e : GitLabMergeRequestEvent)
  | push (user : GitLabUser) (project : GitLabProject)
  | tag_push (user : GitLabUser) (project : GitLabProject)
deriving Repr, DecidableEq

/-- The acting user of a webhook event (`event.user`). -/
def GitLabWebhookEvent.user : GitLabWebhookEvent → GitLabUser
  | .note e => e.user
  | .issue e => e.user
  | .merge_request e => e.user
  | .push u _ => u
  | .tag_push u _ => u

/-- The project of a webhook event (`event.project`). -/
def GitLabWebhookEvent.project : GitLabWebhookEvent → GitLabProject
  | .note e => e.project
  | .issue e => e.project
  | .merge_request e => e.project
  | .push _ p => p
  | .tag_push _ p => p

/-- Configuration fields read by the trigger validator. Optional triggers may
also be the empty string, which the source treats as absent (JS falsiness). -/
structure GitLabActionConfig where
  triggerPhrase : String
  assigneeTrigger : Option String
  labelTrigger : Option String
deriving Repr, DecidableEq

/-- The comment attached to a triggering result (`result.triggerComment`). -/
structure TriggerComment where
  id : Int
  body : String
  author : GitLabUser
  created_at : String
  updated_at : String
  system : Bool
  noteable_type : String
  noteable_id : Int
deriving Repr, DecidableEq

structure TriggerResult where
  shouldTrigger : Bool
  triggerType : Option String
  resourceType : Option String
  resourceId : Option Int
  projectId : Option Int
  triggeredBy : Option GitLabUser
  triggerComment : Option TriggerComment := none
deriving Repr, DecidableEq

/- Embedding of `GitLabTriggerValidator` (src/gitlab/validation/trigger.ts).
The class holds `config`; here it is an explicit first argument. -/

/-- Embeds `containsTriggerPhrase` (trigger.ts:173-182). -/
def containsTriggerPhrase (config : GitLabActionConfig) (text : String) : Bool :=
  if text == "" then false
  else
    let normalizedText := strLower text
    let normalizedPhrase := strLower config.triggerPhrase
    strIncludes normalizedText normalizedPhrase ||
      strIncludes normalizedText ("@" ++ replaceFirstAt normalizedPhrase)

/-- One string against the six bot regexes of `isBotUser` (trigger.ts:186-193),
all case-insensitive: suffix `bot`, suffix `[bot]`, head `gitlab-`,
head `github-`, suffix `service`, suffix `automation`. -/
def botPatternTest (s : String) : Bool :=
  strEndsWith (strLower s) "bot" ||
  strEndsWith (strLower s) "[bot]" ||
  strStartsWith (strLower s) "gitlab-" ||
  strStartsWith (strLower s) "github-" ||
  strEndsWith (strLower s) "service" ||
  strEndsWith (strLower s) "automation"

/-- Embeds `isBotUser` (trigger.ts:184-197): the patterns are tested against
`user.username` and against `user.name || ''`. -/
def isBotUser (user : GitLabUser) : Bool :=
  botPatternTest user.username || botPatternTest (user.name.getD "")

/-- The assignee-trigger test of `validateIssueEvent`/`validateMergeRequestEvent`
(trigger.ts:79-91, 128-140): `config.assigneeTrigger` truthy, `event.assignees`
present, and some assignee's username equals the configured one. -/
def assigneeHit (config : GitLabActionConfig) (assignees : Option (List GitLabUser)) : Bool :=
  match config.assigneeTrigger, assignees with
  | some atrig, some list => !(atrig == "") && list.any (fun a => a.username == atrig)
  | _, _ => false

/-- The label-trigger test (trigger.ts:94-106, 143-155). -/
def labelHit (config : GitLabActionConfig) (labels : Option (List GitLabLabel)) : Bool :=
  match config.labelTrigger, labels with
  | some ltrig, some list => !(ltrig == "") && list.any (fun l => l.title == ltrig)
  | _, _ => false

/-- Embeds `validateNoteEvent` (trigger.ts:40-73). The nested matches mirror
the source's `noteable_type === 'Issue' && event.issue` guards: when the tag
matches but the reference is absent, neither branch fires and the already
up-dated result is returned. -/
def validateNoteEvent (config : GitLabActionConfig) (event : GitLabNoteEvent)
    (result : TriggerResult) : TriggerResult :=
  let note := event.object_attributes
  if note.system then result
  else if containsTriggerPhrase config note.note then
    let result := { result with
      shouldTrigger := true
      triggerType := some "comment"
      triggerComment := some {
        id := note.id
        body := note.note
        author := event.user
        created_at := note.created_at
        updated_at := note.updated_at
        system := note.system
        noteable_type := note.noteable_type
        noteable_id := note.noteable_id } }
    if note.noteable_type == "Issue" then
      match event.issue with
      | some iss => { result with resourceType := some "issue", resourceId := some iss.iid }
      | none => result
    else if note.noteable_type == "MergeRequest" then
      match event.merge_request with
      | some mr => { result with resourceType := some "merge_request", resourceId := some mr.iid }
      | none => result
    else result
  else result

/-- Embeds `validateIssueEvent` (trigger.ts:75-122). -/
def validateIssueEvent (config : GitLabActionConfig) (event : GitLabIssueEvent)
    (result : TriggerResult) : TriggerResult :=
  let issue := event.object_attributes
  if assigneeHit config event.assignees then
    { result with
      shouldTrigger := true
      triggerType := some "assignee"
      resourceType := some "issue"
      resourceId := some issue.iid }
  else if labelHit config event.labels then
    { result with
      shouldTrigger := true
      triggerType := some "label"
      resourceType := some "issue"
      resourceId := some issue.iid }
  else if issue.state == "opened" &&
      (containsTriggerPhrase config issue.title ||
        containsTriggerPhrase config (issue.description.getD "")) then
    { result with
      shouldTrigger := true
      triggerType := some "comment"
      resourceType := some "issue"
      resourceId := some issue.iid }
  else result

/-- Embeds `validateMergeRequestEvent` (trigger.ts:124-171). -/
def validateMergeRequestEvent (config : GitLabActionConfig) (event : GitLabMergeRequestEvent)
    (result : TriggerResult) : TriggerResult :=
  let mr := event.object_attributes
  if assigneeHit config event.assignees then
    { result with
      shouldTrigger := true
      triggerType := some "assignee"
      resourceType := some "merge_request"
      resourceId := some mr.iid }
  else if labelHit config event.labels then
    { result with
      shouldTrigger := true
      triggerType := some "label"
      resourceType := some "merge_request"
      resourceId := some mr.iid }
  else if mr.state == "opened" &&
      (containsTriggerPhrase config mr.title ||
        containsTriggerPhrase config (mr.description.getD "")) then
    { result with
      shouldTrigger := true
      triggerType := some "comment"
      resourceType := some "merge_request"
      resourceId := some mr.iid }
  else result

/-- Embeds `validateTrigger` (trigger.ts:13-38). -/
def validateTrigger (config : GitLabActionConfig) (event : GitLabWebhookEvent) : TriggerResult :=
  let result : TriggerResult := {
    shouldTrigger := false
    triggerType := none
    resourceType := none
    resourceId := none
    projectId := some event.project.id
    triggeredBy := some event.user
    triggerComment := none }
  if isBotUser event.user then result
  else
    match event with
    | .note e => validateNoteEvent config e result
    | .issue e => validateIssueEvent config e result
    | .merge_request e => validateMergeRequestEvent config e result
    | _ => result

/-- The fields `validatePipelineTrigger` projects out of `JSON.parse`'s value
with no validation; every one may be absent. -/
structure PipelineTriggerData where
  triggerType : Option String
  resourceType : Option String
  resourceId : Option Int
  projectId : Option Int
  triggeredBy : Option GitLabUser
deriving Repr, DecidableEq

/-- Embeds `validatePipelineTrigger` (trigger.ts:218-240). `JSON.parse` is an
external builtin; its outcome is the `Except` argument — `.error` models a
parse failure (or a parse to `null`, whose field access then throws inside the
same `try`), `.ok` a successful parse to a non-null value with the five
relevant fields projected out. The source's `catch` turns every failure into
the all-null non-triggering result, so the function is total: no exception
escapes. -/
def validatePipelineTrigger (parsed : Except String PipelineTriggerData) : TriggerResult :=
  match parsed with
  | .ok data =>
    { shouldTrigger := true
      triggerType := some (jsStringOr data.triggerType "direct")
      resourceType := data.resourceType
      resourceId := data.resourceId
      projectId := data.projectId
      triggeredBy := data.triggeredBy
      triggerComment := none }
  | .error _ =>
    { shouldTrigger := false
      triggerType := none
      resourceType := none
      resourceId := none
      projectId := none
      triggeredBy := none
      triggerComment := none }

/- Embedding of the tool-list resolution (src/gitlab/create-prompt/index.ts). -/

/-- The fixed base deny-list `DISALLOWED_TOOLS`. -/
def DISALLOWED_TOOLS : List String := ["WebSearch", "WebFetch"]

/-- Embeds `buildDisallowedToolsString(customDisallowedTools?, allowedTools?)`. -/
def buildDisallowedToolsString (customDisallowedTools : Option (List String))
    (allowedTools : Option (List String)) : String :=
  let disallowedTools :=
    match allowedTools with
    | some ats =>
      if ats.length > 0 then DISALLOWED_TOOLS.filter (fun tool => !(ats.contains tool))
      else DISALLOWED_TOOLS
    | none => DISALLOWED_TOOLS
  let allDisallowedTools := joinComma disallowedTools
  match customDisallowedTools with
  | some customs =>
    if customs.length > 0 then
      if !(allDisallowedTools == "") then allDisallowedTools ++ "," ++ joinComma customs
      else joinComma customs
    else allDisallowedTools
  | none => allDisallowedTools

/- Embedding of the merge-request file fetch (src/gitlab/data/formatter.ts). -/

structure GitLabDiff where
  old_path : String
  new_path : String
  new_file : Bool
  renamed_file : Bool
  deleted_file : Bool
deriving Repr, DecidableEq

structure GitLabFile where
  file_path : String
  content : Option String
deriving Repr, DecidableEq

/-- One path against the `excludePatterns` of `isRelevantFile`
(formatter.ts:377-389): only the binary-extension regex carries the `i` flag;
the lockfile, minified-asset and path-segment regexes are case-sensitive. -/
def excludePatternsTest (filePath : String) : Bool :=
  let lower := strLower filePath
  (strEndsWith lower ".png" || strEndsWith lower ".jpg" || strEndsWith lower ".jpeg" ||
    strEndsWith lower ".gif" || strEndsWith lower ".ico" || strEndsWith lower ".svg" ||
    strEndsWith lower ".pdf" || strEndsWith lower ".zip" || strEndsWith lower ".tar" ||
    strEndsWith lower ".gz" || strEndsWith lower ".exe" || strEndsWith lower ".bin" ||
    strEndsWith lower ".dll") ||
  strEndsWith filePath "package-lock.json" ||
  strEndsWith filePath "yarn.lock" ||
  strEndsWith filePath "pnpm-lock.yaml" ||
  strEndsWith filePath "Gemfile.lock" ||
  strEndsWith filePath "composer.lock" ||
  (strEndsWith filePath ".min.js" || strEndsWith filePath ".min.css") ||
  strIncludes filePath "node_modules/" ||
  strIncludes filePath ".git/" ||
  strIncludes filePath "build/" ||
  strIncludes filePath "dist/"

/-- Embeds `isRelevantFile` (formatter.ts:375-392). -/
def isRelevantFile (filePath : String) : Bool := !(excludePatternsTest filePath)

/-- Embeds the selection core of `fetchModifiedFiles` (formatter.ts:346-373).
The API client's `getFile(projectId, path, branch)` is the `getFile` parameter
(`none` models the thrown, caught-and-skipped per-file error) and the base64
content decode is the `decodeBase64` parameter. -/
def fetchModifiedFiles (getFile : String → Option GitLabFile)
    (decodeBase64 : String → String) (diffs : List GitLabDiff) : List GitLabFile :=
  let maxFiles := 20
  let relevantDiffs :=
    (diffs.filter (fun d => !d.deleted_file && isRelevantFile d.new_path)).take maxFiles
  relevantDiffs.filterMap (fun d =>
    (getFile d.new_path).map (fun f => { f with content := f.content.map decodeBase64 }))

/- Helper lemmas about the string model. -/

theorem strIncludes_iff {hay needle : String} :
    strIncludes hay needle = true ↔ needle.data <:+: hay.data := by
  simp [strIncludes]

/-- A text containing `"@" ++ p` also contains `p`. -/
theorem strIncludes_drop_at {t p : String} (h : strIncludes t ("@" ++ p) = true) :
    strIncludes t p = true := by
  rw [strIncludes_iff] at h ⊢
  refine List.IsInfix.trans ?_ h
  rw [String.data_append]
  exact (List.suffix_append _ _).isInfix

/-- The phrase test succeeds on any non-empty text that contains the
lower-cased phrase. -/
theorem containsTriggerPhrase_of_includes {config : GitLabActionConfig} {text : String}
    (hne : text ≠ "")
    (h : strIncludes (strLower text) (strLower config.triggerPhrase) = true) :
    containsTriggerPhrase config text = true := by
  unfold containsTriggerPhrase
  simp [hne, h]

/-- Core shape of `validateNoteEvent` on a non-system, phrase-matching note:
the flag, type and comment are set, and the resource fields are either left
as in the incoming result or resolved to the attached issue/merge request. -/
theorem validateNoteEvent_trigger_shape (config : GitLabActionConfig) (e : GitLabNoteEvent)
    (r : TriggerResult)
    (hs : e.object_attributes.system = false)
    (hp : containsTriggerPhrase config e.object_attributes.note = true) :
    (validateNoteEvent config e r).shouldTrigger = true ∧
    (validateNoteEvent config e r).triggerType = some "comment" ∧
    (validateNoteEvent config e r).triggerComment.isSome = true := by
  unfold validateNoteEvent
  simp only [hs, hp, Bool.false_eq_true, if_false, if_true]
  split
  · split <;> simp
  · split
    · split <;> simp
    · simp

/- Claim theorems. -/

/-- C1. A webhook event whose acting user's username, or display name when
present, matches one of the six fixed bot patterns produces a result with
`shouldTrigger = false`, regardless of the event kind and payload. -/
theorem bot_user_never_triggers (config : GitLabActionConfig) (event : GitLabWebhookEvent)
    (h : botPatternTest event.user.username = true ∨
         botPatternTest (event.user.name.getD "") = true) :
    (validateTrigger config event).shouldTrigger = false := by
  have hb : isBotUser event.user = true := by
    unfold isBotUser
    rcases h with h | h <;> simp [h]
  unfold validateTrigger
  simp [hb]

/-- Witness for C1: the concrete user `deploy-bot` commenting the trigger
phrase on an issue does not trigger. -/
theorem bot_user_never_triggers_witness :
    (botPatternTest "deploy-bot" = true ∨ botPatternTest ((none : Option String).getD "") = true) ∧
    (validateTrigger
      { triggerPhrase := "@claude", assigneeTrigger := none, labelTrigger := none }
      (.note ⟨⟨9, "deploy-bot", none⟩, ⟨4⟩,
        ⟨1, "hey @claude fix this", "t0", "t0", false, "Issue", 5⟩,
        some ⟨11, "title", none, "opened"⟩, none⟩)).shouldTrigger = false :=
  ⟨Or.inl (by decide),
   bot_user_never_triggers _ _ (Or.inl (by decide))⟩

/-- C3. A pipeline trigger whose serialized blob fails to parse yields the
all-null, non-triggering result; the embedded function is total, so no
exception escapes. -/
theorem pipeline_parse_failure_all_null (msg : String) :
    validatePipelineTrigger (.error msg) =
      { shouldTrigger := false, triggerType := none, resourceType := none,
        resourceId := none, projectId := none, triggeredBy := none,
        triggerComment := none } := rfl

/-- C9. A pipeline trigger whose blob parses to a non-null value always
triggers: `triggerType` defaults to `direct` when absent or empty, and
`resourceType`, `resourceId`, `projectId`, `triggeredBy` are taken verbatim
with no validation — in particular the parse of `{}` (all fields absent)
triggers with all three resource fields undefined. -/
theorem pipeline_parse_success_verbatim :
    (∀ d : PipelineTriggerData,
      (validatePipelineTrigger (.ok d)).shouldTrigger = true ∧
      (validatePipelineTrigger (.ok d)).triggerType = some (jsStringOr d.triggerType "direct") ∧
      (validatePipelineTrigger (.ok d)).resourceType = d.resourceType ∧
      (validatePipelineTrigger (.ok d)).resourceId = d.resourceId ∧
      (validatePipelineTrigger (.ok d)).projectId = d.projectId ∧
      (validatePipelineTrigger (.ok d)).triggeredBy = d.triggeredBy) ∧
    validatePipelineTrigger (.ok ⟨none, none, none, none, none⟩) =
      { shouldTrigger := true, triggerType := some "direct", resourceType := none,
        resourceId := none, projectId := none, triggeredBy := none,
        triggerComment := none } :=
  ⟨fun _ => ⟨rfl, rfl, rfl, rfl, rfl, rfl⟩, rfl⟩

/-- C7. A system note never triggers, even when its body contains the
configured trigger phrase. -/
theorem system_note_never_triggers (config : GitLabActionConfig) (e : GitLabNoteEvent)
    (hs : e.object_attributes.system = true) :
    (validateTrigger config (.note e)).shouldTrigger = false := by
  unfold validateTrigger validateNoteEvent
  cases hb : isBotUser (GitLabWebhookEvent.note e).user <;> simp [hb, hs]

/-- Witness for C7: a concrete system note whose body contains the phrase. -/
theorem system_note_never_triggers_witness :
    (⟨1, "hi @claude", "t0", "t0", true, "Issue", 5⟩ : GitLabNote).system = true ∧
    (validateTrigger
      { triggerPhrase := "@claude", assigneeTrigger := none, labelTrigger := none }
      (.note ⟨⟨2, "alice", none⟩, ⟨4⟩,
        ⟨1, "hi @claude", "t0", "t0", true, "Issue", 5⟩,
        some ⟨11, "title", none, "opened"⟩, none⟩)).shouldTrigger = false :=
  ⟨rfl, system_note_never_triggers _ _ rfl⟩

/-- C2. For issue and merge-request events from a non-bot user the three
trigger conditions are checked in the fixed order assignee, label, phrase,
returning at the first hit: an assignee match yields `triggerType = assignee`
whatever the labels, title and description hold, and with no assignee match a
label match yields `triggerType = label` whatever the title and description
hold. -/
theorem trigger_priority_order (config : GitLabActionConfig)
    (ei : GitLabIssueEvent) (em : GitLabMergeRequestEvent)
    (hbi : isBotUser ei.user = false) (hbm : isBotUser em.user = false) :
    (assigneeHit config ei.assignees = true →
      (validateTrigger config (.issue ei)).shouldTrigger = true ∧
      (validateTrigger config (.issue ei)).triggerType = some "assignee") ∧
    (assigneeHit config ei.assignees = false → labelHit config ei.labels = true →
      (validateTrigger config (.issue ei)).shouldTrigger = true ∧
      (validateTrigger config (.issue ei)).triggerType = some "label") ∧
    (assigneeHit config em.assignees = true →
      (validateTrigger config (.merge_request em)).shouldTrigger = true ∧
      (validateTrigger config (.merge_request em)).triggerType = some "assignee") ∧
    (assigneeHit config em.assignees = false → labelHit config em.labels = true →
      (validateTrigger config (.merge_request em)).shouldTrigger = true ∧
      (validateTrigger config (.merge_request em)).triggerType = some "label") := by
  unfold validateTrigger validateIssueEvent validateMergeRequestEvent
  refine ⟨fun ha => ?_, fun ha hl => ?_, fun ha => ?_, fun ha hl => ?_⟩
  · simp [GitLabWebhookEvent.user, GitLabWebhookEvent.project, hbi, ha]
  · simp [GitLabWebhookEvent.user, GitLabWebhookEvent.project, hbi, ha, hl]
  · simp [GitLabWebhookEvent.user, GitLabWebhookEvent.project, hbm, ha]
  · simp [GitLabWebhookEvent.user, GitLabWebhookEvent.project, hbm, ha, hl]

/-- Witness for C2: an issue event and a merge-request event where the
configured assignee, the configured label and the phrase all match at once
report `assignee`, and with the assignee absent the label wins over the
phrase. -/
theorem trigger_priority_order_witness :
    (isBotUser ⟨2, "alice", none⟩ = false) ∧
    (assigneeHit
      { triggerPhrase := "@claude", assigneeTrigger := some "rev", labelTrigger := some "ai" }
      (some [⟨3, "rev", none⟩]) = true) ∧
    ((validateTrigger
      { triggerPhrase := "@claude", assigneeTrigger := some "rev", labelTrigger := some "ai" }
      (.issue ⟨⟨2, "alice", none⟩, ⟨4⟩,
        ⟨7, "please @claude", some "desc @claude", "opened"⟩,
        some [⟨3, "rev", none⟩], some [⟨1, "ai"⟩]⟩)).triggerType = some "assignee") ∧
    ((validateTrigger
      { triggerPhrase := "@claude", assigneeTrigger := some "rev", labelTrigger := some "ai" }
      (.merge_request ⟨⟨2, "alice", none⟩, ⟨4⟩,
        ⟨8, "please @claude", some "desc @claude", "opened"⟩,
        some [], some [⟨1, "ai"⟩]⟩)).triggerType = some "label") := by
  refine ⟨by decide, by decide, ?_, ?_⟩
  · exact (((trigger_priority_order _ _
      ⟨⟨2, "alice", none⟩, ⟨4⟩, ⟨8, "please @claude", some "desc @claude", "opened"⟩,
        some [], some [⟨1, "ai"⟩]⟩
      (by decide) (by decide)).1) (by decide)).2
  · exact ((((trigger_priority_order _
      ⟨⟨2, "alice", none⟩, ⟨4⟩, ⟨7, "please @claude", some "desc @claude", "opened"⟩,
        some [⟨3, "rev", none⟩], some [⟨1, "ai"⟩]⟩ _
      (by decide) (by decide)).2).2).2 (by decide) (by decide)).2

/-- C8. For issue and merge-request events from a non-bot user matching
neither the assignee nor the label trigger, with the resource not in state
`opened`, the result is non-triggering even when the phrase occurs in the
title or description: the phrase check is only reached in state `opened`. -/
theorem phrase_check_requires_opened (config : GitLabActionConfig)
    (ei : GitLabIssueEvent) (em : GitLabMergeRequestEvent)
    (hbi : isBotUser ei.user = false) (hbm : isBotUser em.user = false)
    (hai : assigneeHit config ei.assignees = false)
    (hli : labelHit config ei.labels = false)
    (hsi : ei.object_attributes.state ≠ "opened")
    (ham : assigneeHit config em.assignees = false)
    (hlm : labelHit config em.labels = false)
    (hsm : em.object_attributes.state ≠ "opened") :
    (validateTrigger config (.issue ei)).shouldTrigger = false ∧
    (validateTrigger config (.merge_request em)).shouldTrigger = false := by
  unfold validateTrigger validateIssueEvent validateMergeRequestEvent
  constructor <;>
    simp [GitLabWebhookEvent.user, GitLabWebhookEvent.project, hbi, hbm, hai, hli, hsi, ham, hlm,
      hsm]

/-- Witness for C8: a closed issue and a merged MR whose titles and
descriptions contain the phrase do not trigger. -/
theorem phrase_check_requires_opened_witness :
    (isBotUser ⟨2, "alice", none⟩ = false) ∧
    ((⟨7, "please @claude", some "desc @claude", "closed"⟩ :
        GitLabIssueAttributes).state ≠ "opened") ∧
    ((validateTrigger
      { triggerPhrase := "@claude", assigneeTrigger := some "rev", labelTrigger := some "ai" }
      (.issue ⟨⟨2, "alice", none⟩, ⟨4⟩,
        ⟨7, "please @claude", some "desc @claude", "closed"⟩,
        some [], none⟩)).shouldTrigger = false) ∧
    ((validateTrigger
      { triggerPhrase := "@claude", assigneeTrigger := some "rev", labelTrigger := some "ai" }
      (.merge_request ⟨⟨2, "alice", none⟩, ⟨4⟩,
        ⟨8, "please @claude", some "desc @claude", "merged"⟩,
        none, some [⟨1, "other"⟩]⟩)).shouldTrigger = false) := by
  refine ⟨by decide, by decide, ?_, ?_⟩
  · exact (phrase_check_requires_opened _
      ⟨⟨2, "alice", none⟩, ⟨4⟩, ⟨7, "please @claude", some "desc @claude", "closed"⟩,
        some [], none⟩
      ⟨⟨2, "alice", none⟩, ⟨4⟩, ⟨8, "please @claude", some "desc @claude", "merged"⟩,
        none, some [⟨1, "other"⟩]⟩
      (by decide) (by decide) (by decide) (by decide) (by decide) (by decide) (by decide)
      (by decide)).1
  · exact (phrase_check_requires_opened _
      ⟨⟨2, "alice", none⟩, ⟨4⟩, ⟨7, "please @claude", some "desc @claude", "closed"⟩,
        some [], none⟩
      ⟨⟨2, "alice", none⟩, ⟨4⟩, ⟨8, "please @claude", some "desc @claude", "merged"⟩,
        none, some [⟨1, "other"⟩]⟩
      (by decide) (by decide) (by decide) (by decide) (by decide) (by decide) (by decide)
      (by decide)).2

/-- C6 counterexample. With the configured phrase `""` and the note body `""`,
the body contains the phrase (case-insensitively, with or without a leading
`@`-free occurrence), the user is not a bot and the note is not a system note,
yet the result does not trigger: `containsTriggerPhrase` returns false for
every empty body before looking at the phrase. -/
theorem note_phrase_empty_body_cex :
    isBotUser ⟨2, "alice", none⟩ = false ∧
    strIncludes (strLower "") (strLower "") = true ∧
    (validateTrigger { triggerPhrase := "", assigneeTrigger := none, labelTrigger := none }
      (.note ⟨⟨2, "alice", none⟩, ⟨4⟩, ⟨1, "", "t0", "t0", false, "Issue", 5⟩,
        some ⟨11, "title", none, "opened"⟩, none⟩)).shouldTrigger = false :=
  ⟨by decide, by decide, by decide⟩

/-- C6 amended. For every non-system note event from a non-bot user whose
non-empty body contains the configured trigger phrase in any letter case —
directly or behind a leading `@` — the result triggers with
`triggerType = comment`. -/
theorem note_phrase_triggers (config : GitLabActionConfig) (e : GitLabNoteEvent)
    (hb : isBotUser e.user = false)
    (hs : e.object_attributes.system = false)
    (hne : e.object_attributes.note ≠ "")
    (hc : strIncludes (strLower e.object_attributes.note) (strLower config.triggerPhrase) = true ∨
          strIncludes (strLower e.object_attributes.note)
            ("@" ++ strLower config.triggerPhrase) = true) :
    (validateTrigger config (.note e)).shouldTrigger = true ∧
    (validateTrigger config (.note e)).triggerType = some "comment" := by
  have hinc : strIncludes (strLower e.object_attributes.note)
      (strLower config.triggerPhrase) = true := by
    rcases hc with h | h
    · exact h
    · exact strIncludes_drop_at h
  have hp := containsTriggerPhrase_of_includes hne hinc
  have hshape := validateNoteEvent_trigger_shape config e
    { shouldTrigger := false, triggerType := none, resourceType := none, resourceId := none,
      projectId := some e.project.id, triggeredBy := some e.user, triggerComment := none }
    hs hp
  unfold validateTrigger
  simp only [GitLabWebhookEvent.user, GitLabWebhookEvent.project, hb, Bool.false_eq_true,
    if_false]
  exact ⟨hshape.1, hshape.2.1⟩

/-- Witness for C6 amended: a note body carrying the phrase in mixed case
behind an `@` triggers as a comment. -/
theorem note_phrase_triggers_witness :
    isBotUser ⟨2, "alice", none⟩ = false ∧
    ("hey @CLaude help" : String) ≠ "" ∧
    strIncludes (strLower "hey @CLaude help") (strLower "claude") = true ∧
    ((validateTrigger { triggerPhrase := "claude", assigneeTrigger := none, labelTrigger := none }
      (.note ⟨⟨2, "alice", none⟩, ⟨4⟩,
        ⟨1, "hey @CLaude help", "t0", "t0", false, "Issue", 5⟩,
        some ⟨11, "title", none, "opened"⟩, none⟩)).shouldTrigger = true ∧
     (validateTrigger { triggerPhrase := "claude", assigneeTrigger := none, labelTrigger := none }
      (.note ⟨⟨2, "alice", none⟩, ⟨4⟩,
        ⟨1, "hey @CLaude help", "t0", "t0", false, "Issue", 5⟩,
        some ⟨11, "title", none, "opened"⟩, none⟩)).triggerType = some "comment") :=
  ⟨by decide, by decide, by decide,
   note_phrase_triggers _ _ (by decide) (by decide) (by decide) (Or.inl (by decide))⟩

/-- C10. A non-system, phrase-matching note from a non-bot user whose
`noteable_type` is neither `Issue` with an attached issue nor `MergeRequest`
with an attached merge request still triggers with the comment attached while
`resourceType` and `resourceId` stay null: a triggering result need not name a
target resource. -/
theorem note_trigger_without_resource (config : GitLabActionConfig) (e : GitLabNoteEvent)
    (hb : isBotUser e.user = false)
    (hs : e.object_attributes.system = false)
    (hp : containsTriggerPhrase config e.object_attributes.note = true)
    (hi : e.object_attributes.noteable_type = "Issue" → e.issue = none)
    (hm : e.object_attributes.noteable_type = "MergeRequest" → e.merge_request = none) :
    (validateTrigger config (.note e)).shouldTrigger = true ∧
    (validateTrigger config (.note e)).triggerType = some "comment" ∧
    (validateTrigger config (.note e)).triggerComment.isSome = true ∧
    (validateTrigger config (.note e)).resourceType = none ∧
    (validateTrigger config (.note e)).resourceId = none := by
  unfold validateTrigger validateNoteEvent
  by_cases h1 : e.object_attributes.noteable_type = "Issue"
  · simp [GitLabWebhookEvent.user, GitLabWebhookEvent.project, hb, hs, hp, h1, hi h1]
  · by_cases h2 : e.object_attributes.noteable_type = "MergeRequest"
    · simp [GitLabWebhookEvent.user, GitLabWebhookEvent.project, hb, hs, hp, h1, h2, hm h2]
    · simp [GitLabWebhookEvent.user, GitLabWebhookEvent.project, hb, hs, hp, h1, h2]

/-- Witness for C10: a phrase-matching note on a commit (no attached issue or
merge request) triggers with no resource resolved. -/
theorem note_trigger_without_resource_witness :
    isBotUser ⟨2, "alice", none⟩ = false ∧
    containsTriggerPhrase
      { triggerPhrase := "@claude", assigneeTrigger := none, labelTrigger := none }
      "hey @claude" = true ∧
    ((validateTrigger { triggerPhrase := "@claude", assigneeTrigger := none, labelTrigger := none }
      (.note ⟨⟨2, "alice", none⟩, ⟨4⟩,
        ⟨1, "hey @claude", "t0", "t0", false, "Commit", 5⟩, none, none⟩)).shouldTrigger = true ∧
     (validateTrigger { triggerPhrase := "@claude", assigneeTrigger := none, labelTrigger := none }
      (.note ⟨⟨2, "alice", none⟩, ⟨4⟩,
        ⟨1, "hey @claude", "t0", "t0", false, "Commit", 5⟩, none, none⟩)).triggerType =
        some "comment" ∧
     (validateTrigger { triggerPhrase := "@claude", assigneeTrigger := none, labelTrigger := none }
      (.note ⟨⟨2, "alice", none⟩, ⟨4⟩,
        ⟨1, "hey @claude", "t0", "t0", false, "Commit", 5⟩, none, none⟩)).triggerComment.isSome =
        true ∧
     (validateTrigger { triggerPhrase := "@claude", assigneeTrigger := none, labelTrigger := none }
      (.note ⟨⟨2, "alice", none⟩, ⟨4⟩,
        ⟨1, "hey @claude", "t0", "t0", false, "Commit", 5⟩, none, none⟩)).resourceType = none ∧
     (validateTrigger { triggerPhrase := "@claude", assigneeTrigger := none, labelTrigger := none }
      (.note ⟨⟨2, "alice", none⟩, ⟨4⟩,
        ⟨1, "hey @claude", "t0", "t0", false, "Commit", 5⟩, none, none⟩)).resourceId = none) :=
  ⟨by decide, by decide,
   note_trigger_without_resource _ _ (by decide) (by decide) (by decide)
     (by decide) (by decide)⟩

/-- Comma-joining distributes over append of non-empty lists. -/
theorem joinComma_append (l1 l2 : List String) (h1 : l1 ≠ []) (h2 : l2 ≠ []) :
    joinComma (l1 ++ l2) = joinComma l1 ++ "," ++ joinComma l2 := by
  induction l1 with
  | nil => exact absurd rfl h1
  | cons a as ih =>
    cases as with
    | nil =>
      cases l2 with
      | nil => exact absurd rfl h2
      | cons b bs => simp [joinComma]
    | cons a2 as2 =>
      have h := ih (by simp)
      simp only [List.cons_append, List.append_eq, joinComma] at h ⊢
      rw [h]
      simp [String.append_assoc]

/-- C4. The resolved deny string is the comma-join of the base deny-list
`{WebSearch, WebFetch}` with every caller-allowed tool removed, followed by
the caller's extra disallowed tools; concretely, allowing `WebFetch` leaves a
deny string equal to `WebSearch`, which excludes `WebFetch` but still
includes `WebSearch`. -/
theorem disallowed_tools_resolution :
    (∀ customs allowed : List String,
      buildDisallowedToolsString (some customs) (some allowed) =
        joinComma ((DISALLOWED_TOOLS.filter (fun tool => !(allowed.contains tool))) ++ customs)) ∧
    buildDisallowedToolsString none (some ["WebFetch"]) = "WebSearch" ∧
    strIncludes (buildDisallowedToolsString none (some ["WebFetch"])) "WebSearch" = true ∧
    strIncludes (buildDisallowedToolsString none (some ["WebFetch"])) "WebFetch" = false := by
  refine ⟨?_, by decide, by decide, by decide⟩
  intro customs allowed
  have hjoin : ∀ (base : List String), base = [] ∨ base = ["WebSearch"] ∨ base = ["WebFetch"] ∨
      base = ["WebSearch", "WebFetch"] →
      (if customs.length > 0 then
        if !(joinComma base == "") then joinComma base ++ "," ++ joinComma customs
        else joinComma customs
      else joinComma base) = joinComma (base ++ customs) := by
    intro base hb
    cases customs with
    | nil => simp
    | cons c cs =>
      rcases hb with rfl | rfl | rfl | rfl
      · simp [joinComma]
      · rw [joinComma_append _ (c :: cs) (by simp) (by simp)]; simp [joinComma]
      · rw [joinComma_append _ (c :: cs) (by simp) (by simp)]; simp [joinComma]
      · rw [joinComma_append _ (c :: cs) (by simp) (by simp)]; simp [joinComma]
  cases allowed with
  | nil =>
    show (if customs.length > 0 then
            if !(joinComma DISALLOWED_TOOLS == "") then
              joinComma DISALLOWED_TOOLS ++ "," ++ joinComma customs
            else joinComma customs
          else joinComma DISALLOWED_TOOLS) = _
    rw [show DISALLOWED_TOOLS.filter (fun tool => !(([] : List String).contains tool))
          = ["WebSearch", "WebFetch"] from rfl]
    exact hjoin _ (Or.inr (Or.inr (Or.inr rfl)))
  | cons a as =>
    simp only [buildDisallowedToolsString]
    rw [if_pos (show (a :: as).length > 0 by simp)]
    apply hjoin
    by_cases h1a : "WebSearch" = a <;> by_cases h1b : "WebSearch" ∈ as <;>
      by_cases h2a : "WebFetch" = a <;> by_cases h2b : "WebFetch" ∈ as <;>
        simp [DISALLOWED_TOOLS, List.filter, h1a, h1b, h2a, h2b]

/-- C5 counterexample. A changed, non-deleted `Cargo.lock` — a path ending in
`.lock` that is none of the five lockfiles the source names — survives the
relevance filter and is returned by the file fetch. -/
theorem fetch_lock_file_cex :
    (fetchModifiedFiles (fun p => some { file_path := p, content := none }) id
      [{ old_path := "Cargo.lock", new_path := "Cargo.lock", new_file := false,
         renamed_file := false, deleted_file := false }]).map (fun f => f.file_path) =
      ["Cargo.lock"] ∧
    strEndsWith "Cargo.lock" ".lock" = true ∧
    isRelevantFile "Cargo.lock" = true :=
  ⟨by decide, by decide, by decide⟩

/-- C5 amended. Whenever the file client returns files under their requested
path, the fetched list has at most 20 entries, each entry comes from a
non-deleted diff whose path passes the relevance filter, and no entry's path
ends in `package-lock.json`, `yarn.lock`, `pnpm-lock.yaml`, `Gemfile.lock` or
`composer.lock`, or contains `node_modules/`; paths merely ending in `.lock`
(such as `Cargo.lock`) are not excluded. -/
theorem fetchModifiedFiles_spec (getFile : String → Option GitLabFile)
    (decodeBase64 : String → String) (diffs : List GitLabDiff)
    (hpf : ∀ p f, getFile p = some f → f.file_path = p) :
    (fetchModifiedFiles getFile decodeBase64 diffs).length ≤ 20 ∧
    ∀ f ∈ fetchModifiedFiles getFile decodeBase64 diffs,
      (∃ d ∈ diffs, d.deleted_file = false ∧ isRelevantFile d.new_path = true ∧
        f.file_path = d.new_path) ∧
      strEndsWith f.file_path "package-lock.json" = false ∧
      strEndsWith f.file_path "yarn.lock" = false ∧
      strEndsWith f.file_path "pnpm-lock.yaml" = false ∧
      strEndsWith f.file_path "Gemfile.lock" = false ∧
      strEndsWith f.file_path "composer.lock" = false ∧
      strIncludes f.file_path "node_modules/" = false := by
  unfold fetchModifiedFiles
  constructor
  · exact le_trans (List.length_filterMap_le _ _) (List.length_take_le _ _)
  · intro f hf
    rw [List.mem_filterMap] at hf
    obtain ⟨d, hd, hmap⟩ := hf
    rw [Option.map_eq_some'] at hmap
    obtain ⟨f0, hget, hf0⟩ := hmap
    have hpath : f.file_path = d.new_path := by
      have h0 : f0.file_path = d.new_path := hpf _ _ hget
      rw [← hf0]
      exact h0
    have hd2 := List.mem_filter.mp (List.mem_of_mem_take hd)
    have hdel : d.deleted_file = false := by
      have := hd2.2
      simp only [Bool.and_eq_true, Bool.not_eq_true'] at this
      exact this.1
    have hrel : isRelevantFile d.new_path = true := by
      have := hd2.2
      simp only [Bool.and_eq_true] at this
      exact this.2
    have hex : excludePatternsTest d.new_path = false := by
      have h := hrel
      unfold isRelevantFile at h
      simpa using h
    rw [hpath]
    simp only [excludePatternsTest, Bool.or_eq_false_iff] at hex
    obtain ⟨⟨⟨⟨⟨⟨⟨⟨⟨⟨hA, hB⟩, hC⟩, hD⟩, hE⟩, hF⟩, hG⟩, hH⟩, hI⟩, hJ⟩, hK⟩ := hex
    exact ⟨⟨d, hd2.1, hdel, hrel, rfl⟩, hB, hC, hD, hE, hF, hH⟩

/-- Witness for C5 amended: two concrete diffs, one of which names
`package-lock.json`, fetched by a client that returns each requested path. -/
theorem fetchModifiedFiles_spec_witness :
    (∀ p f, (fun q => (some ⟨q, none⟩ : Option GitLabFile)) p = some f → f.file_path = p) ∧
    ((fetchModifiedFiles (fun q => (some ⟨q, none⟩ : Option GitLabFile)) id
        [⟨"a.ts", "a.ts", true, false, false⟩,
         ⟨"package-lock.json", "package-lock.json", false, false, false⟩]).length ≤ 20 ∧
      ∀ f ∈ fetchModifiedFiles (fun q => (some ⟨q, none⟩ : Option GitLabFile)) id
        [⟨"a.ts", "a.ts", true, false, false⟩,
         ⟨"package-lock.json", "package-lock.json", false, false, false⟩],
        (∃ d ∈ [(⟨"a.ts", "a.ts", true, false, false⟩ : GitLabDiff),
                ⟨"package-lock.json", "package-lock.json", false, false, false⟩],
          d.deleted_file = false ∧ isRelevantFile d.new_path = true ∧
          f.file_path = d.new_path) ∧
        strEndsWith f.file_path "package-lock.json" = false ∧
        strEndsWith f.file_path "yarn.lock" = false ∧
        strEndsWith f.file_path "pnpm-lock.yaml" = false ∧
        strEndsWith f.file_path "Gemfile.lock" = false ∧
        strEndsWith f.file_path "composer.lock" = false ∧
        strIncludes f.file_path "node_modules/" = false) :=
  ⟨fun p f h => by cases h; rfl,
   fetchModifiedFiles_spec _ _ _ (fun p f h => by cases h; rfl)⟩

end GitLabAction
